import Mathlib

/-!
Verification development for the AI-Healthcare-Symptom-Checker repository.

The repository contains two Streamlit scripts:
* `app.py` — deterministic rule-based analyzer `local_symptom_analyzer`,
  plus the submitted-branch orchestration (OpenAI call, JSON extraction via
  the greedy regex `(\x7b.*\x7d)` with DOTALL, fallback behaviour);
* `streamlit_app.py` — `get_condition_analysis` (demo-mode canned result,
  OpenAI call, same greedy regex extraction, error dict on exception).

This file shallowly embeds those components:
* Python `str.lower` is modelled on ASCII (`pyLower`); the keyword tables are
  all lowercase ASCII, so matching behaviour coincides with CPython on them.
* Python's `k in text` substring test is `inText`.
* Python floats 0.9, 0.95, ... are modelled as the corresponding rationals;
  the comparisons performed by the program (`sorted(..., key=confidence)`)
  order these decimal literals identically as floats and as rationals.
* `sorted(conds, key=lambda x: x["confidence"], reverse=True)` is the stable
  descending insertion sort `sortDesc`.
* `json.loads` is modelled by a fueled recursive-descent parser `json_loads`
  following CPython's pure-Python decoder (whitespace set, number regex,
  string escapes, strict control-character rejection); numbers keep their
  lexeme (no claim depends on numeric values of parsed JSON), and duplicate
  object keys are kept in order (no claim input has duplicate keys).
* The external OpenAI call is a parameter (`GatewayOutcome`): the network
  response or raised-exception text of the backend.
-/

/-! ### Python string primitives -/

/-- ASCII model of Python `str.lower` on one character. -/
def lowerChar (c : Char) : Char :=
  if 'A' ≤ c ∧ c ≤ 'Z' then Char.ofNat (c.toNat + 32) else c

/-- ASCII model of Python `str.lower` (`app.py` line 72: `symptoms_text.lower()`). -/
def pyLower (s : String) : String := ⟨s.data.map lowerChar⟩

/-- `leadsWith n h` holds when the list `n` is an initial segment of `h`. -/
def leadsWith : List Char → List Char → Bool
  | [], _ => true
  | _ :: _, [] => false
  | a :: n, b :: h => if a = b then leadsWith n h else false

/-- `strContains n h` holds when `n` occurs contiguously inside `h`. -/
def strContains (n : List Char) : List Char → Bool
  | [] => leadsWith n []
  | c :: t => leadsWith n (c :: t) || strContains n t

/-- Model of Python's `k in text` substring test. -/
def inText (k t : String) : Bool := strContains k.data t.data

/-! ### Data model (spec §3, shapes of the dicts built in `app.py` lines 76-109) -/

structure Condition where
  name : String
  rationale : String
  confidence : ℚ
  urgency : String
deriving DecidableEq

structure Analysis where
  conditions : List Condition
  next_steps : List String
  disclaimer : String
deriving DecidableEq

/-! ### Rule conditions (`app.py` lines 75-90, strings copied verbatim) -/

def respCond : Condition :=
  { name := "Acute respiratory distress / serious respiratory issue"
    rationale := "Presence of breathing difficulty is a red flag requiring urgent evaluation."
    confidence := mkRat 9 10
    urgency := "high" }

def chestCond : Condition :=
  { name := "Cardiac or chest emergency (angina / myocardial infarction)"
    rationale := "Chest pain can indicate a heart-related emergency; immediate attention advised."
    confidence := mkRat 19 20
    urgency := "high" }

def coldCond : Condition :=
  { name := "Common cold (viral upper respiratory infection)"
    rationale := "Upper airway symptoms like runny nose and sore throat without high fever commonly indicate a viral cold."
    confidence := mkRat 13 20
    urgency := "low" }

def fluCond : Condition :=
  { name := "Influenza (flu)"
    rationale := "Fever combined with body aches and fatigue suggests influenza-like illness."
    confidence := mkRat 11 20
    urgency := "medium" }

def allergyCond : Condition :=
  { name := "Allergic rhinitis (allergy)"
    rationale := "Itchy/watery eyes and sneezing without fever suggests allergy."
    confidence := mkRat 9 20
    urgency := "low" }

def giCond : Condition :=
  { name := "Gastrointestinal infection / gastroenteritis"
    rationale := "GI symptoms like vomiting or diarrhea suggest a gastrointestinal infection or upset."
    confidence := mkRat 1 2
    urgency := "medium" }

/-- Conservative generic set used when no rule fires (`app.py` lines 92-97). -/
def fallbackConds : List Condition :=
  [ { name := "Viral infection (unspecified)"
      rationale := "Symptoms could be due to a viral infection; more specific details would help."
      confidence := mkRat 1 2
      urgency := "low" }
  , { name := "Allergic or inflammatory cause"
      rationale := "Consider allergies or inflammation depending on triggers and timing."
      confidence := mkRat 1 5
      urgency := "low" }
  , { name := "Further assessment recommended"
      rationale := "If symptoms worsen or red flags appear, seek clinical evaluation."
      confidence := mkRat 3 20
      urgency := "medium" } ]

/-- Fixed next-step list (`app.py` lines 102-106). -/
def nextStepsList : List String :=
  [ "If any red flag is present (difficulty breathing, chest pain, fainting, severe bleeding), seek emergency care immediately."
  , "For mild symptoms: rest, hydration, OTC analgesics if needed, monitor symptoms for 48–72 hours."
  , "If symptoms worsen or persist beyond 7 days (or new severe symptoms appear), consult a healthcare provider." ]

/-- Fixed disclaimer (`app.py` lines 108-109). -/
def disclaimerText : String :=
  "This is for educational purposes only and not a medical diagnosis. Consult a qualified healthcare professional for medical advice."

/-! ### Keyword rules (`app.py` lines 75-90); each tests the lowercased text -/

def respRule (t : String) : Bool :=
  inText "shortness of breath" t || inText "breathless" t ||
    inText "difficulty breathing" t || inText "cant breathe" t

def chestRule (t : String) : Bool :=
  inText "chest pain" t || inText "pressure in chest" t || inText "tightness in chest" t

def coldRule (t : String) : Bool :=
  (inText "sore throat" t || inText "runny nose" t || inText "sneezing" t ||
      inText "stuffy nose" t || inText "nasal congestion" t) &&
    (!(inText "fever" t) || inText "low fever" t || inText "mild fever" t)

def fluRule (t : String) : Bool :=
  inText "fever" t &&
    (inText "body ache" t || inText "body aches" t || inText "high fever" t ||
      inText "chills" t || inText "fatigue" t)

def allergyRule (t : String) : Bool :=
  (inText "itchy eyes" t || inText "itchy" t || inText "watery eyes" t ||
      inText "seasonal" t || inText "pollen" t || inText "sneezing" t) &&
    !(inText "fever" t)

def giRule (t : String) : Bool :=
  inText "nausea" t || inText "vomit" t || inText "vomiting" t ||
    inText "diarrhea" t || inText "abdominal pain" t

/-- The appended candidates as a function of which rules fired, in the
source's rule-evaluation order (`app.py` lines 75-90). -/
def candidatesOf (b1 b2 b3 b4 b5 b6 : Bool) : List Condition :=
  (if b1 then [respCond] else []) ++ (if b2 then [chestCond] else []) ++
    (if b3 then [coldCond] else []) ++ (if b4 then [fluCond] else []) ++
    (if b5 then [allergyCond] else []) ++ (if b6 then [giCond] else [])

/-- Candidate list appended by the six keyword rules for lowercased text `t`. -/
def candidates (t : String) : List Condition :=
  candidatesOf (respRule t) (chestRule t) (coldRule t) (fluRule t) (allergyRule t) (giRule t)

/-- Insert into a descending-by-confidence list, after any strictly larger
entries and before equal or smaller ones (stability of Python `sorted`). -/
def insertDesc (c : Condition) : List Condition → List Condition
  | [] => [c]
  | d :: ds => if c.confidence < d.confidence then d :: insertDesc c ds else c :: d :: ds

/-- Model of `sorted(conds, key=lambda x: x["confidence"], reverse=True)`:
stable descending sort by confidence. -/
def sortDesc : List Condition → List Condition
  | [] => []
  | c :: cs => insertDesc c (sortDesc cs)

/-- `app.py` lines 92-99: substitute the conservative set when nothing fired,
then sort by confidence descending and keep the first three. -/
def analyzerConditions (fired : List Condition) : List Condition :=
  (sortDesc (if fired.isEmpty then fallbackConds else fired)).take 3

/-- `app.py` lines 65-109: the deterministic rule-based analyzer. -/
def local_symptom_analyzer (symptoms_text : String) : Analysis :=
  let text := pyLower symptoms_text
  { conditions := analyzerConditions (candidates text)
    next_steps := nextStepsList
    disclaimer := disclaimerText }

/-- The fixed demo-mode response of `streamlit_app.py` lines 77-90, returned
whenever no OpenAI client is configured, independent of the input text. -/
def demoAnalysis : Analysis :=
  { conditions :=
      [ { name := "Common Cold"
          rationale := "Mild fever, runny nose, and sore throat match viral cold."
          confidence := mkRat 3 5
          urgency := "low" }
      , { name := "Allergic Rhinitis"
          rationale := "Seasonal runny nose without severe fever suggests allergy."
          confidence := mkRat 1 4
          urgency := "low" }
      , { name := "Influenza"
          rationale := "Fatigue and body aches suggest flu-like infection."
          confidence := mkRat 3 20
          urgency := "medium" } ]
    next_steps :=
      [ "Stay hydrated and rest adequately."
      , "Monitor temperature and symptoms daily."
      , "If high fever or breathing issues appear, see a doctor immediately." ]
    disclaimer := "This is for educational purposes only and not a medical diagnosis. Please consult a qualified doctor." }

/-! ### JSON values and a model of `json.loads`

Model of CPython's default decoder (`json/decoder.py` + `json/scanner.py`):
whitespace set ` \t\n\r`, number regex `-?(0|[1-9]\d*)(\.\d+)?([eE][+-]?\d+)?`,
the constants `NaN`, `Infinity`, `-Infinity`, strict rejection of raw control
characters inside strings, and the standard escapes.  Numbers keep their
lexeme, and `\uXXXX` maps directly to the code point (surrogate pairing is not
modelled; none of the claims exercises it).  Duplicate object keys are kept in
order rather than last-wins as in a Python dict; no claim input has them. -/

inductive Json where
  | null
  | bool (b : Bool)
  | num (lexeme : String)
  | str (s : String)
  | arr (elements : List Json)
  | obj (members : List (String × Json))

/-- Skip the JSON whitespace characters (CPython `WHITESPACE_STR`). -/
def jskipWs : List Char → List Char
  | [] => []
  | c :: cs => if c = ' ' ∨ c = '\t' ∨ c = '\n' ∨ c = '\r' then jskipWs cs else c :: cs

/-- Hexadecimal digit value, if any. -/
def hexVal (c : Char) : Option Nat :=
  if '0' ≤ c ∧ c ≤ '9' then some (c.toNat - 48)
  else if 'a' ≤ c ∧ c ≤ 'f' then some (c.toNat - 87)
  else if 'A' ≤ c ∧ c ≤ 'F' then some (c.toNat - 55)
  else none

/-- Scan a JSON string body (after the opening quote); returns the decoded
characters and the rest after the closing quote.  Fuel-indexed; a fuel of
`length + 1` is always sufficient since every step consumes a character. -/
def scanStr : Nat → List Char → Option (List Char × List Char)
  | 0, _ => none
  | _ + 1, [] => none
  | fuel + 1, c :: cs =>
    if c = '"' then some ([], cs)
    else if c = '\\' then
      match cs with
      | [] => none
      | e :: cs' =>
        let esc : Option (Char × List Char) :=
          if e = '"' then some ('"', cs')
          else if e = '\\' then some ('\\', cs')
          else if e = '/' then some ('/', cs')
          else if e = 'b' then some ('\x08', cs')
          else if e = 'f' then some ('\x0c', cs')
          else if e = 'n' then some ('\n', cs')
          else if e = 'r' then some ('\r', cs')
          else if e = 't' then some ('\t', cs')
          else if e = 'u' then
            match cs' with
            | h1 :: h2 :: h3 :: h4 :: cs'' =>
              match hexVal h1, hexVal h2, hexVal h3, hexVal h4 with
              | some a, some b, some c2, some d =>
                some (Char.ofNat (((a * 16 + b) * 16 + c2) * 16 + d), cs'')
              | _, _, _, _ => none
            | _ => none
          else none
        match esc with
        | some (ch, rest) => (scanStr fuel rest).map fun p => (ch :: p.1, p.2)
        | none => none
    else if c.toNat < 32 then none
    else (scanStr fuel cs).map fun p => (c :: p.1, p.2)

/-- Longest leading run of decimal digits, plus the rest. -/
def digitSpan : List Char → List Char × List Char
  | [] => ([], [])
  | c :: cs =>
    if '0' ≤ c ∧ c ≤ '9' then
      let p := digitSpan cs
      (c :: p.1, p.2)
    else ([], c :: cs)

/-- Optional fractional part `(\.\d+)?` of the number regex: matched only when
a dot is followed by at least one digit. -/
def fracPart : List Char → List Char × List Char
  | [] => ([], [])
  | c :: t =>
    if c = '.' then
      match digitSpan t with
      | ([], _) => ([], c :: t)
      | (d, r) => (c :: d, r)
    else ([], c :: t)

/-- Optional exponent part `([eE][+-]?\d+)?` of the number regex. -/
def expPart : List Char → List Char × List Char
  | [] => ([], [])
  | c :: t =>
    if c = 'e' ∨ c = 'E' then
      let sp : List Char × List Char :=
        match t with
        | [] => ([], [])
        | s :: t' => if s = '+' ∨ s = '-' then ([s], t') else ([], s :: t')
      match digitSpan sp.2 with
      | ([], _) => ([], c :: t)
      | (d, r) => (c :: (sp.1 ++ d), r)
    else ([], c :: t)

/-- Unsigned part of CPython's `NUMBER_RE`: `(0|[1-9]\d*)(\.\d+)?([eE][+-]?\d+)?`. -/
def scanNumCore : List Char → Option (List Char × List Char)
  | [] => none
  | c :: t =>
    if c = '0' then
      let f := fracPart t
      let e := expPart f.2
      some ('0' :: (f.1 ++ e.1), e.2)
    else if '1' ≤ c ∧ c ≤ '9' then
      let d := digitSpan t
      let f := fracPart d.2
      let e := expPart f.2
      some (c :: (d.1 ++ f.1 ++ e.1), e.2)
    else none

/-- Full number match, with optional leading minus sign. -/
def scanNum : List Char → Option (List Char × List Char)
  | [] => none
  | c :: t =>
    if c = '-' then (scanNumCore t).map fun p => ('-' :: p.1, p.2)
    else scanNumCore (c :: t)

mutual

/-- `scan_once` of CPython's scanner: parse one JSON value starting exactly at
the head of the input (no leading-whitespace skip). -/
def parseValue : Nat → List Char → Option (Json × List Char)
  | 0, _ => none
  | fuel + 1, cs =>
    match cs with
    | [] => none
    | c :: t =>
      if c = '\x7b' then
        match jskipWs t with
        | '\x7d' :: r => some (Json.obj [], r)
        | t1 => (parseMembers fuel t1).map fun p => (Json.obj p.1, p.2)
      else if c = '[' then
        match jskipWs t with
        | ']' :: r => some (Json.arr [], r)
        | t1 => (parseElems fuel t1).map fun p => (Json.arr p.1, p.2)
      else if c = '"' then
        (scanStr (t.length + 1) t).map fun p => (Json.str ⟨p.1⟩, p.2)
      else if c = 't' then
        match t with
        | 'r' :: 'u' :: 'e' :: r => some (Json.bool true, r)
        | _ => none
      else if c = 'f' then
        match t with
        | 'a' :: 'l' :: 's' :: 'e' :: r => some (Json.bool false, r)
        | _ => none
      else if c = 'n' then
        match t with
        | 'u' :: 'l' :: 'l' :: r => some (Json.null, r)
        | _ => none
      else if c = 'N' then
        match t with
        | 'a' :: 'N' :: r => some (Json.num "NaN", r)
        | _ => none
      else if c = 'I' then
        match t with
        | 'n' :: 'f' :: 'i' :: 'n' :: 'i' :: 't' :: 'y' :: r => some (Json.num "Infinity", r)
        | _ => none
      else
        match scanNum (c :: t) with
        | some (lex, r) => some (Json.num ⟨lex⟩, r)
        | none =>
          if c = '-' then
            match t with
            | 'I' :: 'n' :: 'f' :: 'i' :: 'n' :: 'i' :: 't' :: 'y' :: r =>
              some (Json.num "-Infinity", r)
            | _ => none
          else none

/-- `JSONObject` member loop: input starts at a property name (whitespace
already skipped, and the empty-object case already handled by the caller). -/
def parseMembers : Nat → List Char → Option (List (String × Json) × List Char)
  | 0, _ => none
  | fuel + 1, cs =>
    match cs with
    | '"' :: t =>
      match scanStr (t.length + 1) t with
      | none => none
      | some (key, r1) =>
        match jskipWs r1 with
        | ':' :: r2 =>
          match parseValue fuel (jskipWs r2) with
          | none => none
          | some (v, r3) =>
            match jskipWs r3 with
            | '\x7d' :: r4 => some ([(⟨key⟩, v)], r4)
            | ',' :: r4 =>
              match parseMembers fuel (jskipWs r4) with
              | none => none
              | some (ms, r5) => some ((⟨key⟩, v) :: ms, r5)
            | _ => none
        | _ => none
    | _ => none

/-- `JSONArray` element loop: input starts at the first element (whitespace
already skipped, empty-array case handled by the caller). -/
def parseElems : Nat → List Char → Option (List Json × List Char)
  | 0, _ => none
  | fuel + 1, cs =>
    match parseValue fuel cs with
    | none => none
    | some (v, r1) =>
      match jskipWs r1 with
      | ']' :: r2 => some ([v], r2)
      | ',' :: r2 =>
        match parseElems fuel (jskipWs r2) with
        | none => none
        | some (vs, r3) => some (v :: vs, r3)
      | _ => none

end

/-- Model of `json.loads`: skip leading whitespace, scan one value, skip
trailing whitespace, and demand the input be exhausted.  Every recursive call
consumes at least one character, so the fuel `2 * length + 2` never runs out
before the input does. -/
def json_loads (s : String) : Option Json :=
  match parseValue (2 * s.length + 2) (jskipWs s.data) with
  | some (v, r) => if jskipWs r = [] then some v else none
  | none => none

/-! ### Extraction: the greedy regex `(\x7b.*\x7d)` with `re.DOTALL`

`re.search` finds the leftmost match, whose start is the first `\x7b` that is
followed by some `\x7d`; the greedy `.*` then extends to the last `\x7d` of
the text (`app.py` line 166, `streamlit_app.py` line 126). -/

/-- Drop characters until the first `\x7b`, keeping it. -/
def dropToOpen : List Char → List Char
  | [] => []
  | c :: cs => if c = '\x7b' then c :: cs else dropToOpen cs

/-- Does the list contain a `\x7d`? -/
def hasClose : List Char → Bool
  | [] => false
  | c :: cs => c = '\x7d' || hasClose cs

/-- Keep everything up to and including the last `\x7d` (the caller
guarantees one exists). -/
def upToLastClose : List Char → List Char
  | [] => []
  | c :: cs =>
    if hasClose cs then c :: upToLastClose cs
    else if c = '\x7d' then [c] else []

/-- The span matched by `re.search(r"(\x7b.*\x7d)", text, re.DOTALL)`, if any. -/
def extractSpanL (cs : List Char) : Option (List Char) :=
  let t := dropToOpen cs
  if hasClose t then some (upToLastClose t) else none

/-- String-level wrapper for the regex span. -/
def extractSpan (s : String) : Option String :=
  (extractSpanL s.data).map fun l => ⟨l⟩

/-! ### The two resolvers -/

/-- Outcome of the external OpenAI chat call: the (stripped) completion text,
or the text of the exception the call raised. -/
inductive GatewayOutcome where
  | ok (text : String)
  | err (reason : String)

/-- The possible shapes of `result` in the submitted branch of `app.py`
(lines 146-177): plain analyzer output (no client), a parsed JSON dict, the
`\x7b"raw": text\x7d` dict, or the analyzer output with a `"note"` key merged in. -/
inductive AppResult where
  | localOnly (a : Analysis)
  | structured (j : Json)
  | raw (text : String)
  | noteFallback (note : String) (a : Analysis)

/-- Stands for `str(e)` of the `json.JSONDecodeError` raised by `json.loads`
on `span`; the claims depend only on which branch runs, never on this text. -/
def jsonDecodeErrorMsg (span : String) : String :=
  "JSONDecodeError on " ++ span

/-- `app.py` lines 146-177: the submitted-branch orchestration.  With a
configured client it calls the gateway inside `try`; the `except` block
catches both call failures and `json.loads` failures and merges the string
`"OpenAI call failed: " + str(e)` with the local analyzer output.  Without a
client it runs the local analyzer directly. -/
def appSubmitResult (clientConfigured : Bool) (g : GatewayOutcome) (symptoms : String) :
    AppResult :=
  if clientConfigured then
    match g with
    | GatewayOutcome.ok text =>
      match extractSpan text with
      | some span =>
        match json_loads span with
        | some j => AppResult.structured j
        | none =>
          AppResult.noteFallback ("OpenAI call failed: " ++ jsonDecodeErrorMsg span)
            (local_symptom_analyzer symptoms)
      | none => AppResult.raw text
    | GatewayOutcome.err e =>
      AppResult.noteFallback ("OpenAI call failed: " ++ e) (local_symptom_analyzer symptoms)
  else AppResult.localOnly (local_symptom_analyzer symptoms)

/-- The possible shapes of the dict returned by `get_condition_analysis` in
`streamlit_app.py`: the fixed demo analysis, a parsed JSON dict, the
`\x7b"raw": output\x7d` dict, or the `\x7b"error": str(e)\x7d` dict. -/
inductive SResult where
  | analysis (a : Analysis)
  | structured (j : Json)
  | raw (text : String)
  | error (reason : String)

/-- `streamlit_app.py` lines 72-132: demo mode returns the fixed canned
analysis; otherwise the gateway is called inside `try`, the greedy regex span
is parsed, and any exception (call failure or `json.loads` failure) yields the
`\x7b"error": str(e)\x7d` dict. -/
def get_condition_analysis (clientConfigured : Bool) (g : GatewayOutcome)
    (symptoms_text : String) : SResult :=
  if clientConfigured then
    match g with
    | GatewayOutcome.ok output =>
      match extractSpan output with
      | some span =>
        match json_loads span with
        | some j => SResult.structured j
        | none => SResult.error (jsonDecodeErrorMsg span)
      | none => SResult.raw output
    | GatewayOutcome.err e => SResult.error e
  else SResult.analysis demoAnalysis

/-- The embedded JSON object of the spec's running example response. -/
def c4obj : String :=
  "\x7b\"conditions\":[],\"next_steps\":[],\"disclaimer\":\"ok\"\x7d"

/-- The JSON value embedded in `c4obj`. -/
def c4val : Json :=
  Json.obj [("conditions", Json.arr []), ("next_steps", Json.arr []),
    ("disclaimer", Json.str "ok")]

/-! ### Substring lemmas -/

theorem leadsWith_iff (n h : List Char) : leadsWith n h = true ↔ ∃ u, h = n ++ u := by
  induction n generalizing h with
  | nil => simpa [leadsWith] using ⟨h, rfl⟩
  | cons a n ih =>
    cases h with
    | nil =>
      simp only [leadsWith]
      constructor
      · intro hf; cases hf
      · rintro ⟨u, hu⟩; cases hu
    | cons b t =>
      simp only [leadsWith]
      by_cases hab : a = b
      · subst hab
        rw [if_pos rfl, ih]
        constructor
        · rintro ⟨u, rfl⟩; exact ⟨u, rfl⟩
        · rintro ⟨u, hu⟩
          exact ⟨u, (List.cons.injEq a t a (n ++ u) ▸ hu).2⟩
      · rw [if_neg hab]
        constructor
        · intro hf; cases hf
        · rintro ⟨u, hu⟩
          exact absurd ((List.cons.injEq b t a (n ++ u) ▸ hu).1).symm hab

theorem strContains_iff (n h : List Char) :
    strContains n h = true ↔ ∃ p u, h = p ++ n ++ u := by
  induction h with
  | nil =>
    simp only [strContains, leadsWith_iff]
    constructor
    · rintro ⟨u, hu⟩; exact ⟨[], u, by simpa using hu⟩
    · rintro ⟨p, u, hu⟩
      have h0 : p ++ n ++ u = [] := hu.symm
      rw [List.append_eq_nil, List.append_eq_nil] at h0
      exact ⟨u, by simp [h0.1.2, h0.2]⟩
  | cons c t ih =>
    simp only [strContains, Bool.or_eq_true, leadsWith_iff, ih]
    constructor
    · rintro (⟨u, hu⟩ | ⟨p, u, hu⟩)
      · exact ⟨[], u, by simpa using hu⟩
      · exact ⟨c :: p, u, by simp [hu]⟩
    · rintro ⟨p, u, hu⟩
      cases p with
      | nil => exact Or.inl ⟨u, by simpa using hu⟩
      | cons d p' =>
        refine Or.inr ⟨p', u, ?_⟩
        have : c :: t = d :: (p' ++ n ++ u) := by simpa using hu
        exact (List.cons.injEq c t d (p' ++ n ++ u) ▸ this).2

theorem strContains_trans (a b c : List Char) (h1 : strContains a b = true)
    (h2 : strContains b c = true) : strContains a c = true := by
  rw [strContains_iff] at h1 h2 ⊢
  obtain ⟨p1, u1, rfl⟩ := h1
  obtain ⟨p2, u2, rfl⟩ := h2
  exact ⟨p2 ++ p1, u1 ++ u2, by simp⟩

theorem mem_of_strContains (n h : List Char) (hc : strContains n h = true) :
    ∀ c ∈ n, c ∈ h := by
  rw [strContains_iff] at hc
  obtain ⟨p, u, rfl⟩ := hc
  intro c hcn
  simp [hcn]

theorem inText_trans (a b t : String) (h1 : inText a b = true) (h2 : inText b t = true) :
    inText a t = true :=
  strContains_trans a.data b.data t.data h1 h2

theorem inText_ws_false (k t : String) (hw : ∀ c ∈ t.data, c.isWhitespace = true)
    (hk : ∃ c ∈ k.data, c.isWhitespace = false) : inText k t = false := by
  cases hc : inText k t with
  | false => rfl
  | true =>
    obtain ⟨c, hck, hcw⟩ := hk
    have := hw c (mem_of_strContains k.data t.data hc c hck)
    rw [this] at hcw
    cases hcw

theorem lowerChar_isWs (c : Char) (h : c.isWhitespace = true) :
    (lowerChar c).isWhitespace = true := by
  have hv : c = ' ' ∨ c = '\t' ∨ c = '\r' ∨ c = '\n' := by
    unfold Char.isWhitespace at h
    simpa [or_assoc] using h
  rcases hv with rfl | rfl | rfl | rfl <;> decide

theorem pyLower_ws (s : String) (hw : ∀ c ∈ s.data, c.isWhitespace = true) :
    ∀ c ∈ (pyLower s).data, c.isWhitespace = true := by
  intro c hc
  obtain ⟨d, hd, rfl⟩ := List.mem_map.mp hc
  exact lowerChar_isWs d (hw d hd)

/-! ### Extraction lemmas -/

theorem dropToOpen_append (p r : List Char) (hp : '\x7b' ∉ p) :
    dropToOpen (p ++ r) = dropToOpen r := by
  induction p with
  | nil => rfl
  | cons c cs ih =>
    have hc : ¬c = '\x7b' := fun hh => hp (by simp [hh])
    simp only [List.cons_append, dropToOpen, if_neg hc]
    exact ih fun hh => hp (List.mem_cons_of_mem c hh)

theorem hasClose_append (l r : List Char) :
    hasClose (l ++ r) = (hasClose l || hasClose r) := by
  induction l with
  | nil => simp [hasClose]
  | cons c cs ih => simp [hasClose, ih, Bool.or_assoc]

theorem hasClose_false (l : List Char) (h : '\x7d' ∉ l) : hasClose l = false := by
  induction l with
  | nil => rfl
  | cons c cs ih =>
    have hc : ¬c = '\x7d' := fun hh => h (by simp [hh])
    have ht := ih fun hh => h (List.mem_cons_of_mem c hh)
    simp [hasClose, hc, ht]

theorem upToLastClose_concat (l r : List Char) (hr : hasClose r = false) :
    upToLastClose (l ++ '\x7d' :: r) = l ++ ['\x7d'] := by
  induction l with
  | nil => simp [upToLastClose, hr]
  | cons c cs ih =>
    have h1 : hasClose (cs ++ '\x7d' :: r) = true := by
      rw [hasClose_append]; simp [hasClose]
    rw [List.cons_append, upToLastClose, if_pos h1, ih, List.cons_append]

/-- The conditions of the analyzer output, restated through `candidatesOf`
applied to the six rule outcomes (definitional). -/
theorem analyzer_conditions_def (s : String) :
    (local_symptom_analyzer s).conditions =
      analyzerConditions (candidatesOf (respRule (pyLower s)) (chestRule (pyLower s))
        (coldRule (pyLower s)) (fluRule (pyLower s)) (allergyRule (pyLower s))
        (giRule (pyLower s))) := rfl

/-! ### Claim theorems -/

/-- C5: for every non-empty, non-whitespace input string, the rule-based
analyzer returns between 1 and 3 conditions, and when zero keyword rules fire
it returns the fixed conservative triple (unspecified viral infection 0.50/low,
allergic-or-inflammatory cause 0.20/low, further-assessment-recommended
0.15/medium), as recorded in `fallbackConds`. -/
theorem c5_condition_count (s : String) (h : ∃ c ∈ s.data, c.isWhitespace = false) :
    (1 ≤ (local_symptom_analyzer s).conditions.length ∧
      (local_symptom_analyzer s).conditions.length ≤ 3) ∧
    (candidates (pyLower s) = [] →
      (local_symptom_analyzer s).conditions = fallbackConds) := by
  have key : ∀ b1 b2 b3 b4 b5 b6 : Bool,
      1 ≤ (analyzerConditions (candidatesOf b1 b2 b3 b4 b5 b6)).length ∧
        (analyzerConditions (candidatesOf b1 b2 b3 b4 b5 b6)).length ≤ 3 := by decide
  constructor
  · rw [analyzer_conditions_def]
    exact key _ _ _ _ _ _
  · intro hc
    have hdef : (local_symptom_analyzer s).conditions =
        analyzerConditions (candidates (pyLower s)) := rfl
    rw [hdef, hc]
    decide

/-- Witness for C5 at the concrete input "headache" (which fires no rule). -/
theorem c5_condition_count_w :
    (∃ c ∈ "headache".data, c.isWhitespace = false) ∧
    ((1 ≤ (local_symptom_analyzer "headache").conditions.length ∧
        (local_symptom_analyzer "headache").conditions.length ≤ 3) ∧
      (candidates (pyLower "headache") = [] →
        (local_symptom_analyzer "headache").conditions = fallbackConds)) :=
  ⟨by decide, c5_condition_count "headache" (by decide)⟩

/-- C6: for every input string, the analyzer's conditions list is sorted by
confidence in descending order.  The claim's tie clause (equal confidences
keep rule-evaluation order) is vacuous, because confidences in any one output
are pairwise distinct (see the C10 theorem); `sortDesc` nevertheless models
Python's `sorted` stably, placing earlier candidates before later equal ones. -/
theorem c6_sorted_desc (s : String) :
    List.Pairwise (fun a b => b.confidence ≤ a.confidence)
      (local_symptom_analyzer s).conditions := by
  have key : ∀ b1 b2 b3 b4 b5 b6 : Bool,
      List.Pairwise (fun a b => b.confidence ≤ a.confidence)
        (analyzerConditions (candidatesOf b1 b2 b3 b4 b5 b6)) := by decide
  rw [analyzer_conditions_def]
  exact key _ _ _ _ _ _

/-- C1 counterexample: in `streamlit_app.py`, a failing gateway call makes
`get_condition_analysis` return the bare error dict; it carries no analyzer
output at all, contradicting the claim for that resolver. -/
theorem c1_streamlit_no_fallback_cex :
    get_condition_analysis true (GatewayOutcome.err "boom") "chest pain" =
      SResult.error "boom" ∧
    SResult.error "boom" ≠ SResult.analysis (local_symptom_analyzer "chest pain") :=
  ⟨rfl, fun h => SResult.noConfusion h⟩

/-- C1 (amended): on gateway failure, `app.py` returns exactly the rule-based
analyzer's output for the submitted text with the failure reason attached
under the "note" key; `streamlit_app.py` instead returns an error dict
carrying only the reason, with no analyzer output. -/
theorem c1_gateway_failure_amended (e s : String) :
    appSubmitResult true (GatewayOutcome.err e) s =
      AppResult.noteFallback ("OpenAI call failed: " ++ e) (local_symptom_analyzer s) ∧
    get_condition_analysis true (GatewayOutcome.err e) s = SResult.error e :=
  ⟨rfl, rfl⟩

/-- C2 counterexample: the response "see \x7boops\x7d end" yields the span
"\x7boops\x7d", which fails to parse as JSON; `app.py` then substitutes the
rule-based analyzer output (with a note) instead of returning the
raw-text outcome the claim requires. -/
theorem c2_parse_failure_cex :
    appSubmitResult true (GatewayOutcome.ok "see \x7boops\x7d end") "x" =
      AppResult.noteFallback ("OpenAI call failed: " ++ jsonDecodeErrorMsg "\x7boops\x7d")
        (local_symptom_analyzer "x") ∧
    AppResult.noteFallback ("OpenAI call failed: " ++ jsonDecodeErrorMsg "\x7boops\x7d")
      (local_symptom_analyzer "x") ≠ AppResult.raw "see \x7boops\x7d end" :=
  ⟨rfl, fun h => AppResult.noConfusion h⟩

/-- C2 (amended): if no brace-delimited span is found, both resolvers return
the raw-text outcome carrying the full response; if a span is found but fails
to parse as JSON, the `except` blocks swallow the `json.loads` error, so
`app.py` substitutes the rule-based analyzer output with a note and
`streamlit_app.py` returns an error dict — neither returns the raw text
in that case. -/
theorem c2_extraction_amended (text s : String) :
    (extractSpan text = none →
      appSubmitResult true (GatewayOutcome.ok text) s = AppResult.raw text ∧
      get_condition_analysis true (GatewayOutcome.ok text) s = SResult.raw text) ∧
    (∀ span : String, extractSpan text = some span → json_loads span = none →
      appSubmitResult true (GatewayOutcome.ok text) s =
        AppResult.noteFallback ("OpenAI call failed: " ++ jsonDecodeErrorMsg span)
          (local_symptom_analyzer s) ∧
      get_condition_analysis true (GatewayOutcome.ok text) s =
        SResult.error (jsonDecodeErrorMsg span)) := by
  constructor
  · intro h
    constructor <;> simp [appSubmitResult, get_condition_analysis, h]
  · intro span hsp hj
    constructor <;> simp [appSubmitResult, get_condition_analysis, hsp, hj]

/-- Witness for C2 (amended): a brace-free response gives the raw outcome,
and a response with an unparsable span gives the error outcome. -/
theorem c2_extraction_amended_w :
    (extractSpan "hello there" = none ∧
      appSubmitResult true (GatewayOutcome.ok "hello there") "x" =
        AppResult.raw "hello there") ∧
    (extractSpan "see \x7bbad\x7d tail" = some "\x7bbad\x7d" ∧
      json_loads "\x7bbad\x7d" = none ∧
      get_condition_analysis true (GatewayOutcome.ok "see \x7bbad\x7d tail") "y" =
        SResult.error (jsonDecodeErrorMsg "\x7bbad\x7d")) :=
  ⟨⟨rfl, ((c2_extraction_amended "hello there" "x").1 rfl).1⟩,
    ⟨rfl, rfl,
      ((c2_extraction_amended "see \x7bbad\x7d tail" "y").2 "\x7bbad\x7d" rfl rfl).2⟩⟩

/-- C3 counterexample: with no backend configured, `streamlit_app.py` returns
the fixed canned demo analysis, which differs from the rule-based analyzer's
output on "chest pain" (the canned list has no high-urgency condition). -/
theorem c3_demo_mode_cex :
    get_condition_analysis false (GatewayOutcome.err "") "chest pain" =
      SResult.analysis demoAnalysis ∧
    demoAnalysis ≠ local_symptom_analyzer "chest pain" :=
  ⟨rfl, by decide⟩

/-- C3 (amended): with no backend configured, `app.py` returns exactly the
rule-based analyzer's output for the submitted text, while
`streamlit_app.py` returns a fixed demo analysis independent of the text. -/
theorem c3_no_backend_amended (g : GatewayOutcome) (s : String) :
    appSubmitResult false g s = AppResult.localOnly (local_symptom_analyzer s) ∧
    get_condition_analysis false g s = SResult.analysis demoAnalysis :=
  ⟨rfl, rfl⟩

/-- C4: the extraction span runs from the first `\x7b` greedily to the last
`\x7d`; for a response that is a valid JSON object wrapped in brace-free
prose, both resolvers recover exactly the embedded object. -/
theorem c4_greedy_extraction (pre obj post s : String) (inner : List Char) (j : Json)
    (hpre1 : '\x7b' ∉ pre.data) (hpre2 : '\x7d' ∉ pre.data)
    (hpost1 : '\x7b' ∉ post.data) (hpost2 : '\x7d' ∉ post.data)
    (hobj : obj.data = '\x7b' :: inner ++ ['\x7d'])
    (hparse : json_loads obj = some j) :
    appSubmitResult true (GatewayOutcome.ok (pre ++ obj ++ post)) s =
      AppResult.structured j ∧
    get_condition_analysis true (GatewayOutcome.ok (pre ++ obj ++ post)) s =
      SResult.structured j := by
  have hspan : extractSpan (pre ++ obj ++ post) = some obj := by
    have hdata : (pre ++ obj ++ post).data = pre.data ++ (obj.data ++ post.data) := by
      rw [String.data_append, String.data_append, List.append_assoc]
    have e1 : obj.data ++ post.data = '\x7b' :: (inner ++ ('\x7d' :: post.data)) := by
      rw [hobj]; simp
    have e2 : dropToOpen ('\x7b' :: (inner ++ ('\x7d' :: post.data))) =
        '\x7b' :: (inner ++ ('\x7d' :: post.data)) := by
      simp [dropToOpen]
    have hhc : hasClose (inner ++ ('\x7d' :: post.data)) = true := by
      rw [hasClose_append]; simp [hasClose]
    have hhc2 : hasClose ('\x7b' :: (inner ++ ('\x7d' :: post.data))) = true := by
      simp [hasClose, hhc]
    have e3 : upToLastClose ('\x7b' :: (inner ++ ('\x7d' :: post.data))) =
        '\x7b' :: (inner ++ ['\x7d']) := by
      rw [upToLastClose, if_pos hhc,
        upToLastClose_concat inner post.data (hasClose_false post.data hpost2)]
    unfold extractSpan extractSpanL
    rw [hdata, dropToOpen_append pre.data (obj.data ++ post.data) hpre1, e1, e2,
      if_pos hhc2, e3]
    have : ('\x7b' :: (inner ++ ['\x7d']) : List Char) = obj.data := by
      rw [hobj]; simp
    simp [this]
  constructor <;> simp [appSubmitResult, get_condition_analysis, hspan, hparse]

/-- Witness for C4 at the spec's example: prose before and after a valid
JSON object. -/
theorem c4_greedy_extraction_w :
    ('\x7b' ∉ "Sure! ".data) ∧ ('\x7d' ∉ "Sure! ".data) ∧
    ('\x7b' ∉ " Hope that helps!".data) ∧ ('\x7d' ∉ " Hope that helps!".data) ∧
    json_loads c4obj = some c4val ∧
    appSubmitResult true (GatewayOutcome.ok ("Sure! " ++ c4obj ++ " Hope that helps!"))
      "sym" = AppResult.structured c4val :=
  ⟨by decide, by decide, by decide, by decide, rfl,
    (c4_greedy_extraction "Sure! " c4obj " Hope that helps!" "sym"
      ("\"conditions\":[],\"next_steps\":[],\"disclaimer\":\"ok\"".data) c4val
      (by decide) (by decide) (by decide) (by decide) (by decide) rfl).1⟩

/-- C7: for every input whose case-folded form contains "chest pain", the top
condition of the analyzer has urgency "high" and confidence at least 0.9
(it is the cardiac condition, confidence 0.95). -/
theorem c7_chest_pain_top (s : String) (h : inText "chest pain" (pyLower s) = true) :
    ∃ c, (local_symptom_analyzer s).conditions.head? = some c ∧
      c.urgency = "high" ∧ mkRat 9 10 ≤ c.confidence := by
  have hchest : chestRule (pyLower s) = true := by
    simp [chestRule, h]
  have key : ∀ b1 b3 b4 b5 b6 : Bool,
      (analyzerConditions (candidatesOf b1 true b3 b4 b5 b6)).head? = some chestCond := by
    decide
  refine ⟨chestCond, ?_, rfl, by decide⟩
  rw [analyzer_conditions_def, hchest]
  exact key _ _ _ _ _

/-- Witness for C7 at the concrete input "Sudden Chest Pain" (mixed case). -/
theorem c7_chest_pain_top_w :
    inText "chest pain" (pyLower "Sudden Chest Pain") = true ∧
    ∃ c, (local_symptom_analyzer "Sudden Chest Pain").conditions.head? = some c ∧
      c.urgency = "high" ∧ mkRat 9 10 ≤ c.confidence :=
  ⟨by decide, c7_chest_pain_top "Sudden Chest Pain" (by decide)⟩

/-- C8: for every input whose case-folded form contains
"sore throat, runny nose" and does not contain "fever", the analyzer's
returned (sorted, truncated) conditions contain the low-urgency common-cold
condition: at most the two 0.9/0.95 emergencies outrank its 0.65, so it
always survives the cut to three. -/
theorem c8_cold_present (s : String)
    (h1 : inText "sore throat, runny nose" (pyLower s) = true)
    (h2 : inText "fever" (pyLower s) = false) :
    coldCond ∈ (local_symptom_analyzer s).conditions := by
  have hsore : inText "sore throat" (pyLower s) = true :=
    inText_trans "sore throat" "sore throat, runny nose" (pyLower s) (by decide) h1
  have hcold : coldRule (pyLower s) = true := by
    simp [coldRule, hsore, h2]
  have hflu : fluRule (pyLower s) = false := by
    simp [fluRule, h2]
  have key : ∀ b1 b2 b5 b6 : Bool,
      coldCond ∈ analyzerConditions (candidatesOf b1 b2 true false b5 b6) := by decide
  rw [analyzer_conditions_def, hcold, hflu]
  exact key _ _ _ _

/-- Witness for C8 at the concrete input "sore throat, runny nose for 3 days". -/
theorem c8_cold_present_w :
    inText "sore throat, runny nose" (pyLower "sore throat, runny nose for 3 days") = true ∧
    inText "fever" (pyLower "sore throat, runny nose for 3 days") = false ∧
    coldCond ∈ (local_symptom_analyzer "sore throat, runny nose for 3 days").conditions :=
  ⟨by decide, by decide,
    c8_cold_present "sore throat, runny nose for 3 days" (by decide) (by decide)⟩

/-- C9: the analyzer is total over all strings; on empty or whitespace-only
input no keyword rule fires (every keyword contains a non-whitespace
character, and case-folding preserves whitespace), so it returns the
conservative triple together with the fixed next steps and disclaimer. -/
theorem c9_whitespace_total (s : String) (hw : ∀ c ∈ s.data, c.isWhitespace = true) :
    local_symptom_analyzer s =
      { conditions := fallbackConds, next_steps := nextStepsList,
        disclaimer := disclaimerText } := by
  have hw' := pyLower_ws s hw
  have hf : ∀ k : String, (∃ c ∈ k.data, c.isWhitespace = false) →
      inText k (pyLower s) = false :=
    fun k hk => inText_ws_false k (pyLower s) hw' hk
  have h1 : respRule (pyLower s) = false := by
    simp [respRule, hf "shortness of breath" (by decide), hf "breathless" (by decide),
      hf "difficulty breathing" (by decide), hf "cant breathe" (by decide)]
  have h2 : chestRule (pyLower s) = false := by
    simp [chestRule, hf "chest pain" (by decide), hf "pressure in chest" (by decide),
      hf "tightness in chest" (by decide)]
  have h3 : coldRule (pyLower s) = false := by
    simp [coldRule, hf "sore throat" (by decide), hf "runny nose" (by decide),
      hf "sneezing" (by decide), hf "stuffy nose" (by decide),
      hf "nasal congestion" (by decide)]
  have h4 : fluRule (pyLower s) = false := by
    simp [fluRule, hf "fever" (by decide)]
  have h5 : allergyRule (pyLower s) = false := by
    simp [allergyRule, hf "itchy eyes" (by decide), hf "itchy" (by decide),
      hf "watery eyes" (by decide), hf "seasonal" (by decide), hf "pollen" (by decide),
      hf "sneezing" (by decide)]
  have h6 : giRule (pyLower s) = false := by
    simp [giRule, hf "nausea" (by decide), hf "vomit" (by decide),
      hf "vomiting" (by decide), hf "diarrhea" (by decide),
      hf "abdominal pain" (by decide)]
  have hdef : local_symptom_analyzer s =
      { conditions := analyzerConditions (candidatesOf (respRule (pyLower s))
          (chestRule (pyLower s)) (coldRule (pyLower s)) (fluRule (pyLower s))
          (allergyRule (pyLower s)) (giRule (pyLower s)))
        next_steps := nextStepsList
        disclaimer := disclaimerText } := rfl
  rw [hdef, h1, h2, h3, h4, h5, h6]
  decide

/-- Witness for C9 at the whitespace-only input " ". -/
theorem c9_whitespace_total_w :
    (∀ c ∈ " ".data, c.isWhitespace = true) ∧
    local_symptom_analyzer " " =
      { conditions := fallbackConds, next_steps := nextStepsList,
        disclaimer := disclaimerText } :=
  ⟨by decide, c9_whitespace_total " " (by decide)⟩

/-- C10: in any single analyzer output the confidences are pairwise distinct
(the six rule confidences 0.9, 0.95, 0.65, 0.55, 0.45, 0.5 differ pairwise
and each rule appends at most once; the fallback triple 0.5, 0.2, 0.15 is
used only when nothing fired), so the list is even strictly descending and
its order does not depend on sort stability. -/
theorem c10_conf_distinct (s : String) :
    List.Pairwise (fun a b => a.confidence ≠ b.confidence)
      (local_symptom_analyzer s).conditions ∧
    List.Pairwise (fun a b => b.confidence < a.confidence)
      (local_symptom_analyzer s).conditions := by
  have key : ∀ b1 b2 b3 b4 b5 b6 : Bool,
      List.Pairwise (fun a b => a.confidence ≠ b.confidence)
        (analyzerConditions (candidatesOf b1 b2 b3 b4 b5 b6)) ∧
      List.Pairwise (fun a b => b.confidence < a.confidence)
        (analyzerConditions (candidatesOf b1 b2 b3 b4 b5 b6)) := by decide
  rw [analyzer_conditions_def]
  exact key _ _ _ _ _ _
